import Mathlib

/-!
Shallow embedding of the `kataras/hcaptcha` Go package (hcaptcha.go) in Lean 4,
together with theorems settling the specification claims.

Modelling conventions:
- Machine-level HTTP is abstracted: the client's `HTTPClient.PostForm` call
  followed by `io.ReadAll` of the body is a `Transport` oracle that, given the
  URL and the form payload, either fails at the POST, fails at the body read,
  or yields a body already parsed into a JSON value (`Json`).
- `VerifyToken`/`SiteVerify` additionally return the list of network calls
  made (URL and payload), so that "no network call" and "exactly one POST"
  are stated directly.
- `encoding/json.Unmarshal` into the `Response` struct is modelled by
  `unmarshalResponse`, following the documented Go semantics: object keys are
  processed in order, unknown keys are ignored, a type-mismatched field is
  skipped while the earliest such mismatch is reported as the returned error,
  and fields absent from the object keep their previous values.
- `net/http` request parsing (`ParseMultipartForm`) is stdlib code outside the
  repository; a `Request` carries its outcome (`parseOutcome`) and the form
  maps it populates (`Form`, `PostForm`, `MultipartForm`), over which the
  repository's `getFormValue` is translated verbatim.
-/

namespace Hcaptcha

/-- JSON values, the shape `encoding/json` decodes a response body into.
Numbers are modelled as integers; no claim depends on fractional values. -/
inductive Json where
  | null
  | bool (b : Bool)
  | num (n : Int)
  | str (s : String)
  | arr (elems : List Json)
  | obj (fields : List (String × Json))

/-- Name of a JSON value's type as it appears in Go decode error messages. -/
def Json.typeName : Json → String
  | .null => "null"
  | .bool _ => "bool"
  | .num _ => "number"
  | .str _ => "string"
  | .arr _ => "array"
  | .obj _ => "object"

/-- The hcaptcha JSON response (`Response` struct of the source; JSON tags:
`challenge_ts`, `hostname`, `error-codes`, `success`, `credit`). -/
structure Response where
  ChallengeTS : String := ""
  Hostname : String := ""
  ErrorCodes : List String := []
  Success : Bool := false
  Credit : Bool := false
deriving DecidableEq, Repr

/-- Decode error message in the style of `encoding/json` for a struct field. -/
def fieldTypeError (v : Json) (field : String) (goType : String) : String :=
  "json: cannot unmarshal " ++ v.typeName ++ " into Go struct field Response."
    ++ field ++ " of type " ++ goType

/-- Keep the earliest recorded decode error, as `encoding/json` reports the
earliest type mismatch. -/
def saveError (err : Option String) (msg : String) : Option String :=
  match err with
  | some e => some e
  | none => some msg

/-- Decode a JSON array into a `[]string` Go slice: a non-string element is
left as the zero value `""` and reported as a type error, per the documented
`encoding/json` behaviour of completing the unmarshal as best it can. -/
def decodeStringArray (elems : List Json) : List String × Option String :=
  (elems.map (fun j => match j with | .str s => s | _ => ""),
   if elems.all (fun j => match j with | .str _ => true | _ => false) then none
   else some "json: cannot unmarshal element into Go struct field Response.error-codes of type string")

/-- Process one object key into the `Response` struct, per the JSON tags of
the source's `Response` type: a recognized key with a matching value type sets
the field, `null` leaves a string/bool field untouched and clears a slice
field, a type mismatch skips the field and records the error, and an
unrecognized key is ignored. -/
def applyField (acc : Response × Option String) (kv : String × Json) : Response × Option String :=
  let (resp, err) := acc
  let (key, v) := kv
  if key = "challenge_ts" then
    match v with
    | .str s => ({ resp with ChallengeTS := s }, err)
    | .null => (resp, err)
    | _ => (resp, saveError err (fieldTypeError v "challenge_ts" "string"))
  else if key = "hostname" then
    match v with
    | .str s => ({ resp with Hostname := s }, err)
    | .null => (resp, err)
    | _ => (resp, saveError err (fieldTypeError v "hostname" "string"))
  else if key = "error-codes" then
    match v with
    | .arr elems =>
      let (codes, arrErr) := decodeStringArray elems
      ({ resp with ErrorCodes := codes },
       match arrErr with
       | some msg => saveError err msg
       | none => err)
    | .null => ({ resp with ErrorCodes := [] }, err)
    | _ => (resp, saveError err (fieldTypeError v "error-codes" "[]string"))
  else if key = "success" then
    match v with
    | .bool b => ({ resp with Success := b }, err)
    | .null => (resp, err)
    | _ => (resp, saveError err (fieldTypeError v "success" "bool"))
  else if key = "credit" then
    match v with
    | .bool b => ({ resp with Credit := b }, err)
    | .null => (resp, err)
    | _ => (resp, saveError err (fieldTypeError v "credit" "bool"))
  else
    (resp, err)

/-- Model of `json.Unmarshal(body, &response)` for the `Response` struct:
an object is folded key by key into the struct (later duplicate keys
overwrite, mismatched fields are skipped with the earliest error reported),
`null` is a no-op, and any other top-level value is a type error that leaves
the struct untouched. -/
def unmarshalResponse (init : Response) : Json → Response × Option String
  | .obj fields => fields.foldl applyField (init, none)
  | .null => (init, none)
  | j => (init, some ("json: cannot unmarshal " ++ j.typeName
      ++ " into Go value of type hcaptcha.Response"))

/-- Outcome of the POST to the verification endpoint plus the body read:
the POST itself can fail, reading the body can fail, or a body parsed as a
JSON value is obtained. -/
inductive PostResult where
  | postErr (msg : String)
  | readErr (msg : String)
  | ok (body : Json)

/-- The outbound HTTP transport (the `HTTPClient`), as an oracle from URL and
form payload to the outcome of the call. -/
def Transport := String → List (String × String) → PostResult

/-- Status code `http.StatusTooManyRequests`. -/
def statusTooManyRequests : Nat := 429

/-- Go's `http.StatusText`, restricted to the one status code this package
uses. -/
def statusText (code : Nat) : String :=
  if code = statusTooManyRequests then "Too Many Requests" else ""

/-- An HTTP response as written to a `http.ResponseWriter`: status code and
body. -/
structure HTTPResponse where
  status : Nat
  body : String
deriving DecidableEq, Repr

/-- Values stored on a request context are of arbitrary dynamic type; the
package only ever distinguishes a value of the `Response` type from any
other value. -/
inductive CtxValue where
  | response (val : Response)
  | other
deriving DecidableEq, Repr

/-- A request-scoped context: key/value pairs, most recently added first
(`context.WithValue` wraps, `Value` finds the innermost match). -/
structure Context where
  entries : List (String × CtxValue) := []
deriving DecidableEq, Repr

/-- Lookup of `ctx.Value(key)`: the most recently stored value under the key,
or `none` when the context holds nothing under it. -/
def Context.value (ctx : Context) (key : String) : Option CtxValue :=
  ctx.entries.lookup key

/-- Model of `context.WithValue`: a context extended with one pair, shadowing
older entries under the same key. -/
def Context.withValue (ctx : Context) (key : String) (v : CtxValue) : Context :=
  ⟨(key, v) :: ctx.entries⟩

/-- Result of `r.ParseMultipartForm(PostMaxMemory)` on an inbound request. -/
inductive ParseOutcome where
  | ok
  | errNotMultipart
  | err (msg : String)
deriving DecidableEq, Repr

/-- Whether the parse outcome is an error other than `http.ErrNotMultipart`,
the only case `getFormValue` treats as an extraction error. -/
def ParseOutcome.isFatal : ParseOutcome → Bool
  | .err _ => true
  | _ => false

/-- The value fields of a `*multipart.Form` (its file fields are unused by
this package). -/
structure MultipartForm where
  Value : List (String × List String) := []
deriving DecidableEq, Repr

/-- An inbound HTTP request after body parsing: the outcome of
`ParseMultipartForm` and the form maps it populated, plus the
request-scoped context. -/
structure Request where
  parseOutcome : ParseOutcome := .ok
  Form : List (String × List String) := []
  PostForm : List (String × List String) := []
  MultipartForm : Option MultipartForm := none
  ctx : Context := {}

/-- Go's `url.Values.Get`: first value under the key, `""` when the key is
absent or has no values. -/
def valuesGet (vs : List (String × List String)) (key : String) : String :=
  match vs.lookup key with
  | some (v :: _) => v
  | _ => ""

/-- The `PostMaxMemory` package variable: 32 MiB. -/
def PostMaxMemory : Int := 32 * 2 ^ 20

/-- The fixed remote verification endpoint (`apiURL` constant). -/
def apiURL : String := "https://hcaptcha.com/siteverify"

/-- The `ResponseContextKey` package variable: the well-known context key the
verdict is stored under. -/
def ResponseContextKey : String := "hcaptcha"

/-- A handler (`http.Handler`), as a function from the request to the HTTP
response it writes. -/
def HTTPHandler := Request → HTTPResponse

/-- Go's `http.Error(w, msg, code)`: writes the status code and the message
followed by a newline. -/
def httpError (msg : String) (code : Nat) : HTTPResponse :=
  ⟨code, msg ++ "\n"⟩

/-- The `DefaultFailureHandler` package variable:
`http.Error(w, http.StatusText(http.StatusTooManyRequests), http.StatusTooManyRequests)`. -/
def DefaultFailureHandler : HTTPHandler :=
  fun _ => httpError (statusText statusTooManyRequests) statusTooManyRequests

/-- The hcaptcha client (`Client` struct): transport, optional failure
handler (`nil` modelled as `none`), optional `RemoteIP`/`SiteKey`, and the
secret. -/
structure Client where
  transport : Transport
  FailureHandler : Option HTTPHandler := some DefaultFailureHandler
  RemoteIP : String := ""
  SiteKey : String := ""
  secret : String := ""

/-- The `New` constructor: default transport handle, default failure handler,
and the given secret. -/
def New (secret : String) (transport : Transport) : Client :=
  { transport := transport
    FailureHandler := some DefaultFailureHandler
    secret := secret }

/-- The form payload built by `VerifyToken`: `secret` and `response` always,
`remoteip` added when `RemoteIP` is set, `sitekey` added when `SiteKey` is
set. -/
def Client.formPayload (c : Client) (tkn : String) : List (String × String) :=
  [("secret", c.secret), ("response", tkn)]
    ++ (if c.RemoteIP ≠ "" then [("remoteip", c.RemoteIP)] else [])
    ++ (if c.SiteKey ≠ "" then [("sitekey", c.SiteKey)] else [])

/-- The remote part of `VerifyToken`, after the empty-token guard: POST the
payload, read the body, decode it; every failure appends its description to
the error codes of the response decoded so far. -/
def Client.remoteVerdict (c : Client) (tkn : String) : Response :=
  match c.transport apiURL (c.formPayload tkn) with
  | .postErr msg => { ErrorCodes := [msg] }
  | .readErr msg => { ErrorCodes := [msg] }
  | .ok body =>
    match unmarshalResponse {} body with
    | (resp, some msg) => { resp with ErrorCodes := resp.ErrorCodes ++ [msg] }
    | (resp, none) => resp

/-- A network call: the URL posted to and the form payload sent. -/
def Call := String × List (String × String)

/-- The `VerifyToken` method, instrumented with the list of network calls it
makes: an empty token short-circuits with the `tkn is empty` error code and
no call; otherwise exactly one POST of the form payload to `apiURL` is made
and its outcome becomes the verdict. -/
def Client.VerifyToken (c : Client) (tkn : String) : Response × List Call :=
  if tkn = "" then
    ({ ErrorCodes := ["tkn is empty"] }, [])
  else
    (c.remoteVerdict tkn, [(apiURL, c.formPayload tkn)])

/-- The `getFormValue` helper: a fatal parse error is returned as the
extraction error; otherwise the named field is taken from the first
non-empty source among `r.Form`, `r.PostForm` and the multipart value
fields, and `""` with no error when no source carries it. -/
def getFormValue (r : Request) (key : String) : Except String String :=
  match r.parseOutcome with
  | .err msg => .error msg
  | _ =>
    if r.Form.length > 0 then
      .ok (valuesGet r.Form key)
    else if r.PostForm.length > 0 then
      .ok (valuesGet r.PostForm key)
    else
      match r.MultipartForm with
      | some m =>
        if m.Value.length > 0 then
          match m.Value.lookup key with
          | some (v :: _) => .ok v
          | _ => .ok ""
        else .ok ""
      | none => .ok ""

/-- The `SiteVerify` method: extract the token from the
`h-captcha-response` form field; an extraction error or an empty token
yields a failed verdict with no network call, otherwise `VerifyToken` is
called on the token. -/
def Client.SiteVerify (c : Client) (r : Request) : Response × List Call :=
  match getFormValue r "h-captcha-response" with
  | .error msg => ({ ErrorCodes := [msg] }, [])
  | .ok generatedResponseID =>
    if generatedResponseID = "" then
      ({ ErrorCodes := ["form[h-captcha-response] is empty"] }, [])
    else
      c.VerifyToken generatedResponseID

/-- Which handler the middleware dispatched to. -/
inductive Dispatched where
  | next
  | failure
  | skipped
deriving DecidableEq, Repr

/-- The `Handler` middleware: run `SiteVerify`, attach the verdict to the
request context under `ResponseContextKey`, then dispatch to the inner
handler on success, to the failure handler on failure when one is set, and
to neither when `FailureHandler` is `nil`. Returns the dispatch made and the
context-augmented request both handlers receive. -/
def Client.Handler (c : Client) (r : Request) : Dispatched × Request :=
  let v := (c.SiteVerify r).1
  let r' := { r with ctx := r.ctx.withValue ResponseContextKey (.response v) }
  if v.Success then
    (.next, r')
  else
    match c.FailureHandler with
    | some _ => (.failure, r')
    | none => (.skipped, r')

/-- The `Get` accessor: the `Response` stored on the request context under
`ResponseContextKey` with `true`, or the zero `Response` with `false` when
the key is absent or holds a value of another type. -/
def Get (r : Request) : Response × Bool :=
  match r.ctx.value ResponseContextKey with
  | some (.response response) => (response, true)
  | _ => ({}, false)

/-! Concrete instances used to exercise the definitions. -/

/-- A transport whose POST always succeeds with the given body. -/
def okTransport (body : Json) : Transport := fun _ _ => .ok body

/-- A transport whose POST always fails, as with a refused connection. -/
def failTransport : Transport := fun _ _ => .postErr "connection refused"

/-- A remote body whose decode succeeds with a passing verdict. -/
def passBody : Json := .obj [("success", .bool true), ("challenge_ts", .str "T"), ("hostname", .str "H")]

/-- A remote body whose decode succeeds with a failing verdict and one
remote error code. -/
def rejectBody : Json := .obj [("success", .bool false), ("error-codes", .arr [.str "invalid-input-response"])]

/-- A remote body that sets `success` to `true` and then fails to decode:
`hostname` holds a number where a string is expected. -/
def partialDecodeBody : Json := .obj [("success", .bool true), ("hostname", .num 5)]

/-- A fully configured client over a passing transport. -/
def wClient : Client :=
  { transport := okTransport passBody
    secret := "0x0000"
    RemoteIP := "203.0.113.7"
    SiteKey := "10000000-ffff-ffff-ffff-000000000001" }

/-- A client whose transport always fails. -/
def failClient : Client := { transport := failTransport, secret := "0x0000" }

/-- A client whose remote body decodes partially before a type error. -/
def partialDecodeClient : Client := { transport := okTransport partialDecodeBody, secret := "0x0000" }

/-- A client with a failing transport and no failure handler set. -/
def nilFailClient : Client :=
  { transport := failTransport, FailureHandler := none, secret := "0x0000" }

/-- A request carrying the token in its parsed generic form values. -/
def wRequest : Request := { Form := [("h-captcha-response", ["abc123"])] }

/-- A request whose context already holds a passing verdict. -/
def wCtxRequest : Request :=
  { ctx := ⟨[(ResponseContextKey, .response { Success := true })]⟩ }

/-! Theorems settling the claims. -/

/-- C1: for every client, `VerifyToken` on the empty token returns a verdict
with `Success = false` and the single error code `tkn is empty`, and makes
no network call. -/
theorem verifyToken_empty_token (c : Client) :
    (c.VerifyToken "").1.Success = false ∧
    (c.VerifyToken "").1.ErrorCodes = ["tkn is empty"] ∧
    (c.VerifyToken "").2 = [] := by
  refine ⟨?_, ?_, ?_⟩ <;> simp [Client.VerifyToken]

/-- C2: for every client and non-empty token, `VerifyToken` makes exactly one
POST, to `apiURL`, whose payload holds `secret` with the configured secret
and `response` with the token, holds `remoteip` exactly when `RemoteIP` is
non-empty, and holds `sitekey` exactly when `SiteKey` is non-empty. -/
theorem verifyToken_single_post (c : Client) (tkn : String) (h : tkn ≠ "") :
    (c.VerifyToken tkn).2 = [(apiURL, c.formPayload tkn)] ∧
    ("secret", c.secret) ∈ c.formPayload tkn ∧
    ("response", tkn) ∈ c.formPayload tkn ∧
    ((∃ v, ("remoteip", v) ∈ c.formPayload tkn) ↔ c.RemoteIP ≠ "") ∧
    ((∃ v, ("sitekey", v) ∈ c.formPayload tkn) ↔ c.SiteKey ≠ "") := by
  refine ⟨by simp [Client.VerifyToken, h], ?_, ?_, ?_, ?_⟩ <;>
    by_cases h1 : c.RemoteIP = "" <;> by_cases h2 : c.SiteKey = "" <;>
      simp [Client.formPayload, h1, h2]

/-- C2 witness: the theorem instantiated at a concrete client and token. -/
theorem verifyToken_single_post_witness :
    ("tok" : String) ≠ "" ∧
    ((wClient.VerifyToken "tok").2 = [(apiURL, wClient.formPayload "tok")] ∧
      ("secret", wClient.secret) ∈ wClient.formPayload "tok" ∧
      ("response", "tok") ∈ wClient.formPayload "tok" ∧
      ((∃ v, ("remoteip", v) ∈ wClient.formPayload "tok") ↔ wClient.RemoteIP ≠ "") ∧
      ((∃ v, ("sitekey", v) ∈ wClient.formPayload "tok") ↔ wClient.SiteKey ≠ "")) :=
  ⟨by decide, verifyToken_single_post wClient "tok" (by decide)⟩

/-- C3 counterexample: a remote body that sets `success` to `true` and then
fails to decode (`hostname` holds a number) yields a verdict with
`Success = true` together with a decode-failure error code, because
`json.Unmarshal` skips a mismatched field, keeps the fields already decoded,
and reports the mismatch as the returned error. -/
theorem success_true_with_decode_error_code :
    (partialDecodeClient.VerifyToken "tok").1.Success = true ∧
    (partialDecodeClient.VerifyToken "tok").1.ErrorCodes =
      ["json: cannot unmarshal number into Go struct field Response.hostname of type string"] := by
  refine ⟨by decide, by decide⟩

/-- C3 amended: every local failure appends its description to the error
codes; for an empty token, a POST failure, a body-read failure, and an
extraction failure or empty token in `SiteVerify`, the verdict moreover has
`Success = false`, while after a decode failure `Success` is whatever the
partial decode produced. -/
theorem verdict_failure_modes (c : Client) (r : Request) (tkn : String) :
    ((c.VerifyToken "").1.Success = false ∧
      (c.VerifyToken "").1.ErrorCodes = ["tkn is empty"]) ∧
    (∀ msg, tkn ≠ "" → c.transport apiURL (c.formPayload tkn) = .postErr msg →
      (c.VerifyToken tkn).1.Success = false ∧ (c.VerifyToken tkn).1.ErrorCodes = [msg]) ∧
    (∀ msg, tkn ≠ "" → c.transport apiURL (c.formPayload tkn) = .readErr msg →
      (c.VerifyToken tkn).1.Success = false ∧ (c.VerifyToken tkn).1.ErrorCodes = [msg]) ∧
    (∀ body resp msg, tkn ≠ "" → c.transport apiURL (c.formPayload tkn) = .ok body →
      unmarshalResponse {} body = (resp, some msg) →
      (c.VerifyToken tkn).1.ErrorCodes = resp.ErrorCodes ++ [msg]) ∧
    (∀ msg, getFormValue r "h-captcha-response" = .error msg →
      (c.SiteVerify r).1.Success = false ∧ (c.SiteVerify r).1.ErrorCodes = [msg]) ∧
    (getFormValue r "h-captcha-response" = .ok "" →
      (c.SiteVerify r).1.Success = false ∧
      (c.SiteVerify r).1.ErrorCodes = ["form[h-captcha-response] is empty"]) := by
  refine ⟨⟨by simp [Client.VerifyToken], by simp [Client.VerifyToken]⟩, ?_, ?_, ?_, ?_, ?_⟩
  · intro msg ht hp
    simp [Client.VerifyToken, ht, Client.remoteVerdict, hp]
  · intro msg ht hr
    simp [Client.VerifyToken, ht, Client.remoteVerdict, hr]
  · intro body resp msg ht hb hu
    simp [Client.VerifyToken, ht, Client.remoteVerdict, hb, hu]
  · intro msg he
    simp [Client.SiteVerify, he]
  · intro he
    simp [Client.SiteVerify, he]

/-- C3 amended witness: the POST-failure case at a concrete client. -/
theorem verdict_failure_modes_witness :
    ("tok" : String) ≠ "" ∧
    failClient.transport apiURL (failClient.formPayload "tok") = .postErr "connection refused" ∧
    ((failClient.VerifyToken "tok").1.Success = false ∧
      (failClient.VerifyToken "tok").1.ErrorCodes = ["connection refused"]) :=
  ⟨by decide, rfl,
    (verdict_failure_modes failClient {} "tok").2.1 "connection refused" (by decide) rfl⟩

/-- C4: when a failure handler is configured, the middleware attaches the
`SiteVerify` verdict to the dispatched request's context, retrievable by
`Get` with `found = true`, and dispatches to the inner handler exactly when
the verdict succeeded and to the failure handler exactly when it failed. -/
theorem handler_dispatch (c : Client) (r : Request) (f : HTTPHandler)
    (hf : c.FailureHandler = some f) :
    Get (c.Handler r).2 = ((c.SiteVerify r).1, true) ∧
    ((c.Handler r).1 = Dispatched.next ↔ (c.SiteVerify r).1.Success = true) ∧
    ((c.Handler r).1 = Dispatched.failure ↔ (c.SiteVerify r).1.Success = false) := by
  by_cases hs : (c.SiteVerify r).1.Success <;>
    simp [Client.Handler, hs, hf, Get, Context.value, Context.withValue, List.lookup]

/-- C4 witness: the theorem instantiated at a concrete client and request. -/
theorem handler_dispatch_witness :
    wClient.FailureHandler = some DefaultFailureHandler ∧
    (Get (wClient.Handler {}).2 = ((wClient.SiteVerify {}).1, true) ∧
      ((wClient.Handler {}).1 = Dispatched.next ↔ (wClient.SiteVerify {}).1.Success = true) ∧
      ((wClient.Handler {}).1 = Dispatched.failure ↔ (wClient.SiteVerify {}).1.Success = false)) :=
  ⟨rfl, handler_dispatch wClient {} DefaultFailureHandler rfl⟩

/-- C5: `SiteVerify` returns a failed verdict with the extraction error and
no network call when extraction fails, a failed verdict with the
`form[h-captcha-response] is empty` code and no network call when the
extracted token is empty, and otherwise equals `VerifyToken` on the
extracted token. -/
theorem siteVerify_spec (c : Client) (r : Request) :
    (∀ msg, getFormValue r "h-captcha-response" = .error msg →
      c.SiteVerify r = ({ ErrorCodes := [msg] }, [])) ∧
    (getFormValue r "h-captcha-response" = .ok "" →
      c.SiteVerify r = ({ ErrorCodes := ["form[h-captcha-response] is empty"] }, [])) ∧
    (∀ tkn, getFormValue r "h-captcha-response" = .ok tkn → tkn ≠ "" →
      c.SiteVerify r = c.VerifyToken tkn) := by
  refine ⟨?_, ?_, ?_⟩
  · intro msg he
    simp [Client.SiteVerify, he]
  · intro he
    simp [Client.SiteVerify, he]
  · intro tkn he ht
    simp [Client.SiteVerify, he, ht]

/-- C5 witness: the empty-extracted-token case at a concrete client and the
default request. -/
theorem siteVerify_spec_witness :
    getFormValue {} "h-captcha-response" = Except.ok "" ∧
    wClient.SiteVerify {} = ({ ErrorCodes := ["form[h-captcha-response] is empty"] }, []) :=
  ⟨rfl, (siteVerify_spec wClient {}).2.1 rfl⟩

/-- C6: token extraction returns the fatal parse error when there is one, a
non-multipart content type is not an extraction error, and otherwise the
named field is served by the first non-empty source in the order `Form`,
`PostForm`, multipart value fields, with `""` and no error when no source
carries it. -/
theorem getFormValue_sources (r : Request) (key : String) :
    (∀ msg, r.parseOutcome = .err msg → getFormValue r key = .error msg) ∧
    (r.parseOutcome = .errNotMultipart → ∃ v, getFormValue r key = .ok v) ∧
    (r.parseOutcome.isFatal = false → r.Form.length > 0 →
      getFormValue r key = .ok (valuesGet r.Form key)) ∧
    (r.parseOutcome.isFatal = false → r.Form = [] → r.PostForm.length > 0 →
      getFormValue r key = .ok (valuesGet r.PostForm key)) ∧
    (∀ m v vs, r.parseOutcome.isFatal = false → r.Form = [] → r.PostForm = [] →
      r.MultipartForm = some m → m.Value.lookup key = some (v :: vs) →
      getFormValue r key = .ok v) ∧
    (r.parseOutcome.isFatal = false → r.Form = [] → r.PostForm = [] →
      (∀ m, r.MultipartForm = some m →
        m.Value.lookup key = none ∨ m.Value.lookup key = some []) →
      getFormValue r key = .ok "") := by
  refine ⟨?_, ?_, ?_, ?_, ?_, ?_⟩
  · intro msg hp
    simp [getFormValue, hp]
  · intro hp
    cases hform : r.Form with
    | cons x xs => exact ⟨valuesGet r.Form key, by simp [getFormValue, hp, hform]⟩
    | nil =>
      cases hpost : r.PostForm with
      | cons y ys => exact ⟨valuesGet r.PostForm key, by simp [getFormValue, hp, hform, hpost]⟩
      | nil =>
        cases hm : r.MultipartForm with
        | none => exact ⟨"", by simp [getFormValue, hp, hform, hpost, hm]⟩
        | some m =>
          by_cases hlen : m.Value.length > 0
          · cases hl : m.Value.lookup key with
            | none => exact ⟨"", by simp [getFormValue, hp, hform, hpost, hm, hlen, hl]⟩
            | some vs =>
              cases vs with
              | nil => exact ⟨"", by simp [getFormValue, hp, hform, hpost, hm, hlen, hl]⟩
              | cons v vs => exact ⟨v, by simp [getFormValue, hp, hform, hpost, hm, hlen, hl]⟩
          · exact ⟨"", by simp [getFormValue, hp, hform, hpost, hm, hlen]⟩
  · intro hp hform
    cases hpo : r.parseOutcome <;>
      simp_all [getFormValue, ParseOutcome.isFatal, hform]
  · intro hp hform hpost
    cases hpo : r.parseOutcome <;>
      simp_all [getFormValue, ParseOutcome.isFatal, hform, hpost]
  · intro m v vs hp hform hpost hm hl
    have hlen : 0 < m.Value.length := by
      cases hv : m.Value with
      | nil => rw [hv] at hl; simp [List.lookup] at hl
      | cons x xs => simp
    cases hpo : r.parseOutcome <;>
      simp_all [getFormValue, ParseOutcome.isFatal, hform, hpost, hm, hlen, hl]
  · intro hp hform hpost hmp
    cases hpo : r.parseOutcome with
    | err msg => rw [hpo] at hp; simp [ParseOutcome.isFatal] at hp
    | ok =>
      cases hm : r.MultipartForm with
      | none => simp [getFormValue, hpo, hform, hpost, hm]
      | some m =>
        rcases hmp m hm with hl | hl <;> simp [getFormValue, hpo, hform, hpost, hm, hl]
    | errNotMultipart =>
      cases hm : r.MultipartForm with
      | none => simp [getFormValue, hpo, hform, hpost, hm]
      | some m =>
        rcases hmp m hm with hl | hl <;> simp [getFormValue, hpo, hform, hpost, hm, hl]

/-- C6 witness: the first-source case at a concrete request carrying the
field in its parsed generic form values. -/
theorem getFormValue_sources_witness :
    wRequest.parseOutcome.isFatal = false ∧
    wRequest.Form.length > 0 ∧
    getFormValue wRequest "h-captcha-response" =
      .ok (valuesGet wRequest.Form "h-captcha-response") :=
  ⟨rfl, by decide,
    (getFormValue_sources wRequest "h-captcha-response").2.2.1 rfl (by decide)⟩

/-- C7: the passing remote body decodes to a verdict with `Success = true`,
timestamp `T`, hostname `H` and empty error codes, and the rejecting remote
body decodes to `Success = false` with the single code
`invalid-input-response`; the same verdicts come out of `VerifyToken` when
the transport returns those bodies. -/
theorem decode_roundtrip :
    unmarshalResponse {} passBody =
      ({ ChallengeTS := "T", Hostname := "H", ErrorCodes := [], Success := true }, none) ∧
    unmarshalResponse {} rejectBody =
      ({ ErrorCodes := ["invalid-input-response"], Success := false }, none) ∧
    (wClient.VerifyToken "tok").1 =
      { ChallengeTS := "T", Hostname := "H", ErrorCodes := [], Success := true } ∧
    ((Client.mk (okTransport rejectBody) (some DefaultFailureHandler) "" "" "0x0000").VerifyToken "tok").1 =
      { ErrorCodes := ["invalid-input-response"], Success := false } := by
  refine ⟨by decide, by decide, by decide, by decide⟩

/-- C8: the default failure handler writes status 429 (Too Many Requests)
with no body beyond the standard status text. -/
theorem defaultFailureHandler_response (r : Request) :
    DefaultFailureHandler r = ⟨429, "Too Many Requests\n"⟩ ∧
    statusText statusTooManyRequests = "Too Many Requests" :=
  ⟨rfl, rfl⟩

/-- C9: `Get` returns the zero verdict with `false` when the context holds
nothing under `ResponseContextKey` or holds a value of another type, and
returns the stored verdict with `true` when it holds one. -/
theorem get_spec (r : Request) :
    (r.ctx.value ResponseContextKey = none → Get r = ({}, false)) ∧
    (r.ctx.value ResponseContextKey = some CtxValue.other → Get r = ({}, false)) ∧
    (∀ v, r.ctx.value ResponseContextKey = some (CtxValue.response v) → Get r = (v, true)) := by
  refine ⟨?_, ?_, ?_⟩
  · intro hv
    simp [Get, hv]
  · intro hv
    simp [Get, hv]
  · intro v hv
    simp [Get, hv]

/-- C9 witness: the stored-verdict case at a concrete request. -/
theorem get_spec_witness :
    wCtxRequest.ctx.value ResponseContextKey = some (CtxValue.response { Success := true }) ∧
    Get wCtxRequest = ({ Success := true }, true) :=
  ⟨rfl, (get_spec wCtxRequest).2.2 { Success := true } rfl⟩

/-- C10: when no failure handler is set and verification fails, the
middleware dispatches to neither handler. -/
theorem handler_nil_failure_handler (c : Client) (r : Request)
    (hf : c.FailureHandler = none) (hs : (c.SiteVerify r).1.Success = false) :
    (c.Handler r).1 = Dispatched.skipped := by
  simp [Client.Handler, hs, hf]

/-- C10 witness: a concrete client with no failure handler and a failing
transport on the default request. -/
theorem handler_nil_failure_handler_witness :
    nilFailClient.FailureHandler = none ∧
    (nilFailClient.SiteVerify {}).1.Success = false ∧
    (nilFailClient.Handler {}).1 = Dispatched.skipped :=
  ⟨rfl, by decide, handler_nil_failure_handler nilFailClient {} rfl (by decide)⟩

end Hcaptcha
